import Mathlib

/-!
Verification of `run.py` (earthquake-depth-map): a Dash app that fetches a
USGS GeoJSON earthquake feed and a country-borders GeoJSON file, extracts
per-event fields, converts latitude/longitude/depth to 3D Cartesian points,
and renders them on a translucent globe with two sliders (marker size scale,
depth exaggeration).

The embedding below models:
- JSON values and the Python dictionary/list access idioms used by the
  script (`d[k]` raises on a missing key or non-dict, `d.get(k)` returns
  `None` on a missing key but raises on a non-dict, `xs[i]` raises when out
  of range, `x or default` uses Python truthiness);
- `fetch_data` and the module-level tuple unpacking of its result;
- the per-feature extraction loop (lines 42-49 of run.py);
- `latlon_to_xyz` over the reals (numpy float trig is modelled by exact
  real arithmetic, the spec's "within floating-point tolerance");
- the border-processing pass (lines 78-111), parameterized by the
  projection so that its flattening structure stays computable;
- the `update_graph` callback (lines 186-242) as a function of the cached
  arrays and the two slider values.

Exceptions are modelled by `Option`/`none`: a `none` at module level means
the process aborts. Python dynamic-typing corners that the script cannot
reach with JSON input (e.g. iterating a string as a sequence) are modelled
as failures of the same shape.
-/

/-- JSON values, as produced by `response.json()`. Numbers are modelled by
rationals (the feed's numerals are finite decimals). -/
inductive Json where
  | null : Json
  | bool (b : Bool) : Json
  | num (q : ℚ) : Json
  | str (s : String) : Json
  | arr (xs : List Json) : Json
  | obj (fields : List (String × Json)) : Json

/-- Python `d[k]` on a JSON value: `some v` when `d` is a dict holding `k`,
`none` when the key is missing (KeyError) or `d` is not a dict (TypeError). -/
def jlookup (d : Json) (k : String) : Option Json :=
  match d with
  | Json.obj fields => fields.lookup k
  | _ => none

/-- Python `d.get(k)` on a JSON value: requires `d` to be a dict (else
AttributeError, modelled `none`); a missing key yields Python `None`,
modelled `Json.null`. -/
def jget (d : Json) (k : String) : Option Json :=
  match d with
  | Json.obj fields => some ((fields.lookup k).getD Json.null)
  | _ => none

/-- Python `xs[i]` for a non-negative index on a JSON value: `some` when
`xs` is a list long enough, `none` (IndexError/TypeError) otherwise. -/
def jindex (j : Json) (i : ℕ) : Option Json :=
  match j with
  | Json.arr xs => xs.get? i
  | _ => none

/-- Python truthiness of a JSON value: `None`, `False`, `0`, `""`, `[]`
and `{}` are falsy; everything else is truthy. -/
def truthy (j : Json) : Bool :=
  match j with
  | Json.null => false
  | Json.bool b => b
  | Json.num q => decide (q ≠ 0)
  | Json.str s => decide (s ≠ "")
  | Json.arr xs => !xs.isEmpty
  | Json.obj fields => !fields.isEmpty

/-- Python `a or b`: `a` when truthy, else `b`. -/
def pyOr (a b : Json) : Json :=
  if truthy a then a else b

/-- `props.get("mag") or 0` (run.py line 48): `none` models an exception
(properties not a dict); otherwise the extracted magnitude value. -/
def extract_mag (props : Json) : Option Json :=
  (jget props "mag").map (fun v => pyOr v (Json.num 0))

/-- `props.get("place") or "Unknown"` (run.py line 49). -/
def extract_place (props : Json) : Option Json :=
  (jget props "place").map (fun v => pyOr v (Json.str "Unknown"))

/-- One iteration of the extraction loop (run.py lines 42-49) for a single
feature: `coords = feature["geometry"]["coordinates"]` with raw indexing
`coords[1]`, `coords[0]`, `coords[2]`, then `props = feature["properties"]`
and the defaulted `mag`/`place` reads. `none` models an uncaught exception;
`some (lon, lat, depth, mag, place)` the appended values. -/
def extractFeature (f : Json) : Option (Json × Json × Json × Json × Json) :=
  match jlookup f "geometry" with
  | none => none
  | some g =>
    match jlookup g "coordinates" with
    | none => none
    | some coords =>
      match jindex coords 1, jindex coords 0, jindex coords 2 with
      | some lat, some lon, some depth =>
        match jlookup f "properties" with
        | none => none
        | some props =>
          match extract_mag props, extract_place props with
          | some m, some p => some (lon, lat, depth, m, p)
          | _, _ => none
      | _, _, _ => none

/-! ### Fetching (run.py lines 18-38)

`fetch_data` returns the pair `(quake_data, border_data)` on success of the
quake fetch; when the quake fetch raises (connection error, timeout, or
`raise_for_status` on a non-success status) the `except` branch returns the
5-tuple `[], [], [], [], []`. A failed border fetch sets `border_data = None`.
The module line `quake_json, border_json = fetch_data()` then unpacks the
returned tuple into exactly two names. Tuples are modelled as lists of JSON
values, and HTTP outcomes as `Except` (error = the raised exception's
message). -/

/-- `fetch_data` (run.py lines 18-36): the list of values of the returned
tuple. -/
def fetch_data (quakeResp borderResp : Except String Json) : List Json :=
  match quakeResp with
  | Except.error _ => [Json.arr [], Json.arr [], Json.arr [], Json.arr [], Json.arr []]
  | Except.ok quake_data =>
      match borderResp with
      | Except.ok border_data => [quake_data, border_data]
      | Except.error _ => [quake_data, Json.null]

/-- Python `a, b = t` (run.py line 38): succeeds exactly when the tuple has
two elements; otherwise raises ValueError, modelled `none` (the process
aborts, since line 38 runs at module level under no handler). -/
def unpack2 (t : List Json) : Option (Json × Json) :=
  match t with
  | [a, b] => some (a, b)
  | _ => none

/-! ### Coordinate transform (run.py lines 60-70)

numpy's float trig is modelled by exact real arithmetic; the spec's
tolerance clauses become exact equalities over `ℝ`. -/

/-- Earth radius in km (run.py line 16). -/
def EARTH_RADIUS : ℝ := 6371

/-- `np.radians` : degrees to radians. -/
noncomputable def radians (x : ℝ) : ℝ := x * (Real.pi / 180)

/-- `latlon_to_xyz` (run.py lines 60-70): spherical to Cartesian. -/
noncomputable def latlon_to_xyz (lat lon radius : ℝ) : ℝ × ℝ × ℝ :=
  (radius * Real.cos (radians lat) * Real.cos (radians lon),
   radius * Real.cos (radians lat) * Real.sin (radians lon),
   radius * Real.sin (radians lat))

/-- Euclidean distance from the origin of a 3D point. -/
noncomputable def norm3 (p : ℝ × ℝ × ℝ) : ℝ :=
  Real.sqrt (p.1 ^ 2 + p.2.1 ^ 2 + p.2.2 ^ 2)

/-! ### The `update_graph` callback (run.py lines 181-242)

The callback reads the module-level arrays (`lats`, `lons`, `depths`,
`mags`, `places`) plus the static border trace, and the two slider values.
numpy's elementwise array operations are modelled by `List.map` over
zipped lists (each operation allocates a fresh array; none of the
operations used — broadcast subtract/multiply, `np.maximum`, trig —
mutates its operands, which the state-passing model records by returning
the state unchanged). -/

/-- The module-level per-event arrays (run.py lines 52-55 and 49). -/
structure QuakeData where
  lats : List ℝ
  lons : List ℝ
  depths : List ℝ
  mags : List ℝ
  places : List String

/-- `r_quakes = EARTH_RADIUS - (depths * depth_scale)` (run.py line 189). -/
def r_quakes (depths : List ℝ) (depth_scale : ℝ) : List ℝ :=
  depths.map (fun d => EARTH_RADIUS - d * depth_scale)

/-- `qx, qy, qz = latlon_to_xyz(lats, lons, r_quakes)` (run.py line 190),
elementwise over the arrays; the three coordinate arrays are kept zipped
as one list of points. -/
noncomputable def quake_positions (d : QuakeData) (depth_scale : ℝ) :
    List (ℝ × ℝ × ℝ) :=
  (d.lats.zip (d.lons.zip (r_quakes d.depths depth_scale))).map
    (fun t => latlon_to_xyz t.1 t.2.1 t.2.2)

/-- `safe_mags = np.maximum(mags, 0.1)` (run.py line 201). -/
def safe_mags (mags : List ℝ) : List ℝ :=
  mags.map (fun m => max m 0.1)

/-- Hover label data (run.py lines 193-196): the zip of place, magnitude,
real depth and exaggerated depth feeding each f-string. -/
def hover_text (d : QuakeData) (depth_scale : ℝ) :
    List (String × ℝ × ℝ × ℝ) :=
  (d.places.zip (d.mags.zip d.depths)).map
    (fun t => (t.1, t.2.1, t.2.2, t.2.2 * depth_scale))

/-- The figure returned by the callback: the quake trace's numeric content
(positions, marker sizes, color values and color bounds, hover data) plus
the static border polyline trace. The sphere mesh, color-scale name and
layout options are fixed configuration carrying no claim-relevant data. -/
structure Figure where
  border : List (Option (ℝ × ℝ × ℝ))
  qpos : List (ℝ × ℝ × ℝ)
  sizes : List ℝ
  colors : List ℝ
  cmin : ℝ
  cmax : ℝ
  hover : List (String × ℝ × ℝ × ℝ)

/-- `update_graph` with the read state threaded explicitly: the callback
builds the figure from the cached arrays and returns, leaving the cached
state as it found it (every array operation in lines 186-242 allocates
a new array). -/
noncomputable def update_graph_st
    (st : QuakeData × List (Option (ℝ × ℝ × ℝ)))
    (size_scale depth_scale : ℝ) :
    Figure × (QuakeData × List (Option (ℝ × ℝ × ℝ))) :=
  ({ border := st.2
     qpos := quake_positions st.1 depth_scale
     sizes := (safe_mags st.1.mags).map (fun m => m * size_scale)
     colors := st.1.depths
     cmin := 0
     cmax := 700
     hover := hover_text st.1 depth_scale }, st)

/-- `update_graph(size_scale, depth_scale)` (run.py lines 186-242). -/
noncomputable def update_graph (d : QuakeData)
    (b : List (Option (ℝ × ℝ × ℝ))) (size_scale depth_scale : ℝ) : Figure :=
  (update_graph_st (d, b) size_scale depth_scale).1

/-! ### Border processing (run.py lines 76-111)

For each feature, `geo_type = feature['geometry']['type']` and
`coords = feature['geometry']['coordinates']` are read with raw indexing
(outside any `try`). For a `'Polygon'` (and any other non-`'MultiPolygon'`
type) the loop iterates the elements of `coords` directly as rings; for a
`'MultiPolygon'` it iterates the polygons and takes `poly = poly[0]`, the
first ring of each polygon — still outside the `try`, so an empty or
non-indexable polygon aborts the whole pass. The `try` block converts one
ring with `np.array`, slices `pts[:, 0]` / `pts[:, 1]`, projects through
`latlon_to_xyz`, extends the flattened lists with `.tolist()` of the
results and appends one `None` separator per ring; `except: continue`
skips a ring on which one of those steps raises.

`np.array(poly)` infers a uniform shape: a scalar has shape `[]`, a list
of k elements all of one shape s has shape `k :: s`; ragged or mixed
nesting gives an object array (or a ValueError on recent numpy), and
non-numeric leaves give a non-numeric dtype — in every such case either
the conversion, the column slice, or `np.radians` raises, and the ring is
skipped. Booleans are numeric for numpy (`True`/`False` become 1/0). The
`try` completes exactly when the ring is a uniformly nested numeric (or
boolean) array of dimension ≥ 2 whose second dimension is ≥ 2: then
`pts[:, 1]` / `pts[:, 0]` pick each row's second/first element — a scalar
when the ring is the normal 2-D shape, a deeper sub-array when the ring is
over-nested (e.g. a whole polygon in a ring slot) — the trig maps
elementwise over whatever nesting remains, and `.extend` appends one entry
per row (a plotted point for 2-D rings, a nested list for deeper ones)
followed by the `None` separator.

The pass is parameterized by the projection `proj` (instantiated with
`latlon_to_xyz · · EARTH_RADIUS` in the running app) so that the
flattening structure stays computable; `proj` receives (lat, lon). -/

/-- Sequential `Option`-mapping over a list: models a Python loop whose
body may raise, aborting the whole pass (`none`). -/
def mapMOpt {α β : Type} (g : α → Option β) : List α → Option (List β)
  | [] => some []
  | x :: xs =>
    match g x, mapMOpt g xs with
    | some y, some ys => some (y :: ys)
    | _, _ => none

mutual

/-- The uniform numpy shape of a JSON value, as `np.array` infers it:
`[]` for a numeric or boolean scalar, `k :: s` for a list of `k` elements
that all share shape `s`; `none` for non-numeric leaves (strings, nulls,
dicts) and for ragged or mixed nesting — in all of which the `try` body
raises at the conversion, the column slice, or `np.radians`. -/
def jshape : Json → Option (List ℕ)
  | Json.num _ => some []
  | Json.bool _ => some []
  | Json.arr xs => (jshapeList xs).map (fun s => xs.length :: s)
  | _ => none

/-- The common shape of a list of JSON values (`some []` for the empty
list, like `np.array([])` of shape `(0,)`), `none` when they disagree. -/
def jshapeList : List Json → Option (List ℕ)
  | [] => some []
  | [x] => jshape x
  | x :: y :: xs =>
    match jshape x, jshapeList (y :: xs) with
    | some s, some s2 => if s = s2 then some s else none
    | _, _ => none

end

/-- An n-dimensional array of values, as produced by numpy slicing and
elementwise arithmetic: a scalar, or a list of sub-arrays. -/
inductive NDVal (α : Type) : Type where
  | scalar (a : α) : NDVal α
  | tensor (xs : List (NDVal α)) : NDVal α

mutual

/-- `latlon_to_xyz(b_lats, b_lons, R)` on one row's lat/lon sub-arrays:
numpy maps the trig elementwise over the (equal) nesting of the two
arguments, pairing each lat leaf with the lon leaf in the same position
(booleans are cast to 1/0). The mismatch cases cannot arise for the
sub-elements of one uniformly shaped array; they are mapped to an empty
tensor. -/
def projPair {α : Type} (proj : ℚ → ℚ → α) : Json → Json → NDVal α
  | Json.num la, Json.num lo => NDVal.scalar (proj la lo)
  | Json.num la, Json.bool lo => NDVal.scalar (proj la (if lo then 1 else 0))
  | Json.bool la, Json.num lo => NDVal.scalar (proj (if la then 1 else 0) lo)
  | Json.bool la, Json.bool lo =>
      NDVal.scalar (proj (if la then 1 else 0) (if lo then 1 else 0))
  | Json.arr las, Json.arr los => NDVal.tensor (projPairList proj las los)
  | _, _ => NDVal.tensor []

/-- Elementwise pairing of two equally long lists of lat/lon sub-arrays. -/
def projPairList {α : Type} (proj : ℚ → ℚ → α) :
    List Json → List Json → List (NDVal α)
  | la :: las, lo :: los => projPair proj la lo :: projPairList proj las los
  | _, _ => []

end

/-- The `try` body on one ring (run.py lines 94-109), up to projection:
succeeds exactly when `np.array(poly)` has uniform shape `n :: m :: rest`
with `m ≥ 2` (so both `pts[:, 0]` and `pts[:, 1]` exist and the dtype is
numeric). Returns the per-row (lat, lon) sub-array pairs — row `i`
contributing `(poly[i][1], poly[i][0])` — and `none` exactly when the
`except: continue` fires: non-list or scalar rings (0- or 1-dimensional
arrays), empty rings, ragged nesting, non-numeric entries, or rows with
fewer than two elements. -/
def ringRows (j : Json) : Option (List (Json × Json)) :=
  match j with
  | Json.arr rows =>
    match jshape (Json.arr rows) with
    | some (_ :: m :: _) =>
      if 2 ≤ m then
        mapMOpt (fun row => match row with
          | Json.arr cells =>
            match cells.get? 1, cells.get? 0 with
            | some la, some lo => some (la, lo)
            | _, _ => none
          | _ => none) rows
      else none
    | _ => none
  | _ => none

/-- The contribution of one ring to the flattened border lists: one entry
per row — the projected point for a normally shaped 2-D ring, a nested
tensor of projected values for an over-nested ring — followed by one
`none` separator; or nothing when the ring is skipped by the `except`. -/
def ringSegment {α : Type} (proj : ℚ → ℚ → α) (j : Json) :
    List (Option (NDVal α)) :=
  match ringRows j with
  | some prs => prs.map (fun pr => some (projPair proj pr.1 pr.2)) ++ [none]
  | none => []

/-- True exactly for the JSON string `"MultiPolygon"` (the comparison
`geo_type == 'MultiPolygon'`; a non-string type compares unequal). -/
def isMultiPolygonType (j : Json) : Bool :=
  match j with
  | Json.str s => s = "MultiPolygon"
  | _ => false

/-- The rings one feature feeds to the `try` block: geometry `type` and
`coordinates` are read with raw indexing (`none` aborts the pass); for
`MultiPolygon`, `poly[0]` of each polygon (aborting on an empty or
non-list polygon); otherwise the elements of `coordinates` themselves. -/
def featureRings (f : Json) : Option (List Json) :=
  match jlookup f "geometry" with
  | none => none
  | some g =>
    match jlookup g "type", jlookup g "coordinates" with
    | some gt, some (Json.arr cs) =>
      if isMultiPolygonType gt then
        mapMOpt (fun p => match p with
          | Json.arr (r :: _) => some r
          | _ => none) cs
      else some cs
    | _, _ => none

/-- One feature's contribution to the flattened border lists (the inner
loops of run.py lines 87-111). -/
def processFeature {α : Type} (proj : ℚ → ℚ → α) (f : Json) :
    Option (List (Option (NDVal α))) :=
  (featureRings f).map (fun rs => (rs.map (ringSegment proj)).flatten)

/-- The whole border pass (run.py lines 80-111) over
`border_json['features']`: the flattened `(b_x, b_y, b_z)` sequence as one
list of data entries interleaved with `none` separators; `none` means
an exception escaped the `try` and the pass (and process) aborted. -/
def processBorders {α : Type} (proj : ℚ → ℚ → α) (features : List Json) :
    Option (List (Option (NDVal α))) :=
  (mapMOpt (processFeature proj) features).map List.flatten

/-- Count of `None` separators in the flattened border sequence. -/
def sepCount {α : Type} (out : List (Option α)) : ℕ :=
  out.countP (fun o => o.isNone)

/-- The rings a list of features feeds to the `try` block, when no
feature aborts the pass. -/
def allRings (features : List Json) : List Json :=
  (features.map (fun f => (featureRings f).getD [])).flatten

/-- Number of rings the `try` block completes on (not skipped). -/
def parsedRingCount (features : List Json) : ℕ :=
  (allRings features).countP (fun r => (ringRows r).isSome)

/-- The data entries the surviving rings emit, in order: each surviving
row's projected (lat, lon) value. -/
def parsedEntries {α : Type} (proj : ℚ → ℚ → α) (features : List Json) :
    List (NDVal α) :=
  (((allRings features).filterMap ringRows).flatten).map
    (fun pr => projPair proj pr.1 pr.2)

/-- Modelled from the spec: the claim's "input ring" count of a
FeatureCollection of Polygon/MultiPolygon geometries — every element of a
Polygon's `coordinates`, and every ring of every polygon of a
MultiPolygon's `coordinates` (the spec: "flatten every ring"). -/
def specInputRingCount (features : List Json) : ℕ :=
  (features.map (fun f =>
    match jlookup f "geometry" with
    | none => 0
    | some g =>
      match jlookup g "type", jlookup g "coordinates" with
      | some gt, some (Json.arr cs) =>
        if isMultiPolygonType gt then
          (cs.map (fun p => match p with
            | Json.arr rs => rs.length
            | _ => 0)).sum
        else cs.length
      | _, _ => 0)).sum

/-- A GeoJSON feature with a Polygon geometry holding the given rings. -/
def mkPolygonFeature (rs : List Json) : Json :=
  Json.obj [("geometry", Json.obj [("type", Json.str "Polygon"),
    ("coordinates", Json.arr rs)])]

/-- A GeoJSON feature with a MultiPolygon geometry holding the given
polygons (each polygon a list of rings). -/
def mkMultiPolygonFeature (ps : List Json) : Json :=
  Json.obj [("geometry", Json.obj [("type", Json.str "MultiPolygon"),
    ("coordinates", Json.arr ps)])]

/-- A small well-formed linear ring: a closed triangle. -/
def goodRing : Json :=
  Json.arr [Json.arr [Json.num 0, Json.num 0], Json.arr [Json.num 10, Json.num 0],
    Json.arr [Json.num 0, Json.num 10], Json.arr [Json.num 0, Json.num 0]]

/-- A FeatureCollection with one MultiPolygon feature whose single polygon
has two rings (an outer ring and a hole). -/
def innerRingFeatures : List Json :=
  [mkMultiPolygonFeature [Json.arr [goodRing, goodRing]]]

/-- An over-nested numeric ring: a whole one-row polygon sitting in a ring
slot, giving `np.array` shape (1, 2, 2). The `try` block completes on it
— the column slices pick sub-arrays, the trig maps elementwise, and
`.extend` appends one nested entry plus the separator. -/
def nestedRing : Json :=
  Json.arr [Json.arr [Json.arr [Json.num 1, Json.num 2],
    Json.arr [Json.num 3, Json.num 4]]]

/-! ## Shared lemmas -/

/-- For any latitude and longitude and non-negative radius, the point
produced by `latlon_to_xyz` lies at distance exactly the radius from the
origin. -/
theorem norm3_latlon_to_xyz (lat lon r : ℝ) (hr : 0 ≤ r) :
    norm3 (latlon_to_xyz lat lon r) = r := by
  have h1 := Real.sin_sq_add_cos_sq (radians lat)
  have h2 := Real.sin_sq_add_cos_sq (radians lon)
  have key : (r * Real.cos (radians lat) * Real.cos (radians lon)) ^ 2 +
      (r * Real.cos (radians lat) * Real.sin (radians lon)) ^ 2 +
      (r * Real.sin (radians lat)) ^ 2 = r ^ 2 := by
    linear_combination r ^ 2 * Real.cos (radians lat) ^ 2 * h2 + r ^ 2 * h1
  unfold norm3 latlon_to_xyz
  simp only
  rw [key]
  exact Real.sqrt_sq hr

/-! ## C1 -/

/-- C1: claimed — on a failed primary-feed GET the interactive app degrades
gracefully to empty data and does not abort. In the code the `except`
branch of `fetch_data` returns the 5-tuple `[], [], [], [], []`, and the
module-level unpacking `quake_json, border_json = fetch_data()` of a
5-tuple into two names raises `ValueError`, aborting the process; on a
successful quake fetch the 2-tuple unpacks fine. The claim matches the
evident intent of the handler (log and degrade) but the code aborts. -/
theorem fetch_error_tuple_unpack_aborts :
    unpack2 (fetch_data (Except.error "timeout") (Except.ok (Json.obj []))) = none
    ∧ unpack2 (fetch_data (Except.ok (Json.obj [])) (Except.ok (Json.obj [])))
        = some (Json.obj [], Json.obj []) := by
  exact ⟨rfl, rfl⟩

/-! ## C2 -/

/-- C2: for every latitude in [-90, 90], longitude in [-180, 180] and
radius r ≥ 0, `latlon_to_xyz lat lon r` lies at Euclidean distance exactly
r from the origin. -/
theorem latlon_to_xyz_on_sphere (lat lon r : ℝ)
    (hlat₁ : -90 ≤ lat) (hlat₂ : lat ≤ 90)
    (hlon₁ : -180 ≤ lon) (hlon₂ : lon ≤ 180) (hr : 0 ≤ r) :
    norm3 (latlon_to_xyz lat lon r) = r :=
  norm3_latlon_to_xyz lat lon r hr

/-- Witness for C2 at (lat, lon, r) = (45, 30, 2). -/
theorem latlon_to_xyz_on_sphere_witness :
    (0 : ℝ) ≤ 2 ∧ norm3 (latlon_to_xyz 45 30 2) = 2 :=
  ⟨by norm_num, latlon_to_xyz_on_sphere 45 30 2 (by norm_num) (by norm_num)
    (by norm_num) (by norm_num) (by norm_num)⟩

/-! ## C9 -/

/-- C9: canonical axis checks fixing the orientation convention:
`latlon_to_xyz 0 0 R = (R, 0, 0)`, `latlon_to_xyz 90 0 R = (0, 0, R)` and
`latlon_to_xyz 0 90 R = (0, R, 0)`. -/
theorem latlon_to_xyz_axis_points (R : ℝ) :
    latlon_to_xyz 0 0 R = (R, 0, 0)
    ∧ latlon_to_xyz 90 0 R = (0, 0, R)
    ∧ latlon_to_xyz 0 90 R = (0, R, 0) := by
  have h0 : radians 0 = 0 := by simp [radians]
  have h90 : radians 90 = Real.pi / 2 := by unfold radians; ring
  refine ⟨?_, ?_, ?_⟩ <;>
    simp [latlon_to_xyz, h0, h90, Real.cos_pi_div_two, Real.sin_pi_div_two]

/-! ## C3 -/

/-- C3: for an extracted event with depth `dep ≥ 0` and a depth-slider
value `k` with `dep * k ≤ EARTH_RADIUS`, the quake position that
`update_graph` plots at index `i` is `latlon_to_xyz la lo (EARTH_RADIUS -
dep * k)` and lies at Euclidean distance `EARTH_RADIUS - dep * k` from the
origin. -/
theorem update_graph_quake_depth_placement
    (d : QuakeData) (b : List (Option (ℝ × ℝ × ℝ))) (s k : ℝ) (i : ℕ)
    (la lo dep : ℝ)
    (hla : d.lats.get? i = some la) (hlo : d.lons.get? i = some lo)
    (hdep : d.depths.get? i = some dep)
    (hd : 0 ≤ dep) (hk : dep * k ≤ EARTH_RADIUS) :
    (update_graph d b s k).qpos.get? i
      = some (latlon_to_xyz la lo (EARTH_RADIUS - dep * k))
    ∧ norm3 (latlon_to_xyz la lo (EARTH_RADIUS - dep * k))
      = EARTH_RADIUS - dep * k := by
  constructor
  · have hr : (r_quakes d.depths k).get? i = some (EARTH_RADIUS - dep * k) := by
      unfold r_quakes
      rw [List.get?_map, hdep]
      rfl
    have hz₁ : (d.lons.zip (r_quakes d.depths k)).get? i
        = some (lo, EARTH_RADIUS - dep * k) :=
      (List.get?_zip_eq_some _ _ _ _).mpr ⟨hlo, hr⟩
    have hz₂ : (d.lats.zip (d.lons.zip (r_quakes d.depths k))).get? i
        = some (la, lo, EARTH_RADIUS - dep * k) :=
      (List.get?_zip_eq_some _ _ _ _).mpr ⟨hla, hz₁⟩
    show (quake_positions d k).get? i = _
    unfold quake_positions
    rw [List.get?_map, hz₂]
    rfl
  · exact norm3_latlon_to_xyz la lo _ (sub_nonneg.mpr hk)

/-- Witness for C3: one event at (lat, lon, depth) = (10, 20, 5) with
depth slider 10. -/
theorem update_graph_quake_depth_placement_witness :
    (update_graph ⟨[10], [20], [5], [4], ["x"]⟩ [] 3 10).qpos.get? 0
      = some (latlon_to_xyz 10 20 (EARTH_RADIUS - 5 * 10))
    ∧ norm3 (latlon_to_xyz 10 20 (EARTH_RADIUS - 5 * 10))
      = EARTH_RADIUS - 5 * 10 :=
  update_graph_quake_depth_placement ⟨[10], [20], [5], [4], ["x"]⟩ [] 3 10 0
    10 20 5 rfl rfl rfl (by norm_num) (by norm_num [EARTH_RADIUS])

/-! ## C8 -/

/-- C8: `update_graph` is a pure, deterministic function of the cached
event arrays, the static border trace and the two slider values: equal
slider values over the same cached data give equal figures, and the cached
state comes back from an invocation unchanged. -/
theorem update_graph_deterministic_pure
    (d : QuakeData) (b : List (Option (ℝ × ℝ × ℝ))) (s₁ k₁ s₂ k₂ : ℝ)
    (hs : s₁ = s₂) (hk : k₁ = k₂) :
    update_graph d b s₁ k₁ = update_graph d b s₂ k₂
    ∧ (update_graph_st (d, b) s₁ k₁).2 = (d, b) := by
  subst hs
  subst hk
  exact ⟨rfl, rfl⟩

/-- Witness for C8 at the default slider values (3, 10) over empty data. -/
theorem update_graph_deterministic_pure_witness :
    update_graph ⟨[], [], [], [], []⟩ [] 3 10
      = update_graph ⟨[], [], [], [], []⟩ [] 3 10
    ∧ (update_graph_st (⟨[], [], [], [], []⟩, []) 3 10).2
      = (⟨[], [], [], [], []⟩, []) :=
  update_graph_deterministic_pure ⟨[], [], [], [], []⟩ [] 3 10 3 10 rfl rfl

/-! ## C7 -/

/-- C7: a missing or null `mag` property is extracted as magnitude 0; the
marker size in the figure is `max(mag, 0.1) * size_scale` for each event;
and for any size-slider value ≥ 1 that marker size is strictly positive. -/
theorem mag_default_marker_size_positive :
    (∀ fields : List (String × Json), fields.lookup "mag" = none →
      extract_mag (Json.obj fields) = some (Json.num 0))
    ∧ (∀ fields : List (String × Json), fields.lookup "mag" = some Json.null →
      extract_mag (Json.obj fields) = some (Json.num 0))
    ∧ (∀ (d : QuakeData) (b : List (Option (ℝ × ℝ × ℝ))) (s k : ℝ),
      (update_graph d b s k).sizes = d.mags.map (fun m => max m 0.1 * s))
    ∧ (∀ (m s : ℝ), 1 ≤ s → 0 < max m 0.1 * s) := by
  refine ⟨?_, ?_, ?_, ?_⟩
  · intro fields h
    simp [extract_mag, jget, h, pyOr, truthy]
  · intro fields h
    simp [extract_mag, jget, h, pyOr, truthy]
  · intro d b s k
    show (safe_mags d.mags).map (fun m => m * s) = _
    simp [safe_mags, List.map_map, Function.comp]
  · intro m s hs
    have h₁ : (0 : ℝ) < max m 0.1 :=
      lt_of_lt_of_le (by norm_num) (le_max_right m 0.1)
    exact mul_pos h₁ (lt_of_lt_of_le one_pos hs)

/-- Witness for C7: a record with no `mag` key, a record with a null
`mag`, a one-event figure, and the slider value 3. -/
theorem mag_default_marker_size_positive_witness :
    extract_mag (Json.obj []) = some (Json.num 0)
    ∧ extract_mag (Json.obj [("mag", Json.null)]) = some (Json.num 0)
    ∧ (update_graph ⟨[], [], [], [5], []⟩ [] 3 10).sizes
        = [max (5 : ℝ) 0.1 * 3]
    ∧ (0 : ℝ) < max 5 0.1 * 3 :=
  ⟨mag_default_marker_size_positive.1 [] rfl,
   mag_default_marker_size_positive.2.1 [("mag", Json.null)] rfl,
   by simpa using
     mag_default_marker_size_positive.2.2.1 ⟨[], [], [], [5], []⟩ [] 3 10,
   mag_default_marker_size_positive.2.2.2 5 3 (by norm_num)⟩

/-! ## C10 -/

/-- C10: present-but-falsy property values default like missing ones: a
`mag` of 0 (or null) extracts as magnitude 0, and a `place` of `""` (or
null) extracts as `"Unknown"`. -/
theorem falsy_mag_place_defaulted :
    (∀ fields : List (String × Json), fields.lookup "mag" = some (Json.num 0) →
      extract_mag (Json.obj fields) = some (Json.num 0))
    ∧ (∀ fields : List (String × Json), fields.lookup "mag" = some Json.null →
      extract_mag (Json.obj fields) = some (Json.num 0))
    ∧ (∀ fields : List (String × Json), fields.lookup "place" = some (Json.str "") →
      extract_place (Json.obj fields) = some (Json.str "Unknown"))
    ∧ (∀ fields : List (String × Json), fields.lookup "place" = some Json.null →
      extract_place (Json.obj fields) = some (Json.str "Unknown")) := by
  refine ⟨?_, ?_, ?_, ?_⟩ <;> intro fields h <;>
    simp [extract_mag, extract_place, jget, h, pyOr, truthy]

/-- Witness for C10: records with `mag = 0`, `mag = null`, `place = ""`
and `place = null`. -/
theorem falsy_mag_place_defaulted_witness :
    extract_mag (Json.obj [("mag", Json.num 0)]) = some (Json.num 0)
    ∧ extract_mag (Json.obj [("mag", Json.null)]) = some (Json.num 0)
    ∧ extract_place (Json.obj [("place", Json.str "")]) = some (Json.str "Unknown")
    ∧ extract_place (Json.obj [("place", Json.null)]) = some (Json.str "Unknown") :=
  ⟨falsy_mag_place_defaulted.1 [("mag", Json.num 0)] rfl,
   falsy_mag_place_defaulted.2.1 [("mag", Json.null)] rfl,
   falsy_mag_place_defaulted.2.2.1 [("place", Json.str "")] rfl,
   falsy_mag_place_defaulted.2.2.2 [("place", Json.null)] rfl⟩

/-! ## C4 -/

/-- C4 counterexample: extraction does raise on a malformed feature — a
feature whose `geometry.coordinates` is the empty array (so `coords[1]`
raises IndexError) even though its `properties` are present, refuting
"extraction … never raises: malformed or missing per-event fields are
replaced by defaults". -/
theorem extractFeature_short_coords_raises :
    extractFeature (Json.obj [("geometry", Json.obj [("coordinates", Json.arr [])]),
      ("properties", Json.obj [])]) = none := rfl

/-- C4 amended: for a feature holding a `geometry` dict whose
`coordinates` is an array of at least three entries and holding a
`properties` dict, extraction never raises (magnitude and place are
defaulted, coordinates are read positionally). -/
theorem extractFeature_wellformed_total (f g : Json) (cs : List Json)
    (props : List (String × Json))
    (hg : jlookup f "geometry" = some g)
    (hc : jlookup g "coordinates" = some (Json.arr cs))
    (hlen : 3 ≤ cs.length)
    (hp : jlookup f "properties" = some (Json.obj props)) :
    (extractFeature f).isSome := by
  obtain ⟨a₁, ha₁⟩ : ∃ a, cs[1]? = some a :=
    ⟨_, List.getElem?_eq_getElem (by omega)⟩
  obtain ⟨a₀, ha₀⟩ : ∃ a, cs[0]? = some a :=
    ⟨_, List.getElem?_eq_getElem (by omega)⟩
  obtain ⟨a₂, ha₂⟩ : ∃ a, cs[2]? = some a :=
    ⟨_, List.getElem?_eq_getElem (by omega)⟩
  simp [extractFeature, jindex, hg, hc, ha₀, ha₁, ha₂, hp,
    extract_mag, extract_place, jget]

/-- Witness for the amended C4 at a concrete well-formed feature. -/
theorem extractFeature_wellformed_total_witness :
    (extractFeature (Json.obj [("geometry", Json.obj [("coordinates",
      Json.arr [Json.num 1, Json.num 2, Json.num 3])]),
      ("properties", Json.obj [])])).isSome :=
  extractFeature_wellformed_total
    (Json.obj [("geometry", Json.obj [("coordinates",
      Json.arr [Json.num 1, Json.num 2, Json.num 3])]),
      ("properties", Json.obj [])])
    (Json.obj [("coordinates", Json.arr [Json.num 1, Json.num 2, Json.num 3])])
    [Json.num 1, Json.num 2, Json.num 3] [] rfl rfl (by norm_num) rfl

/-! ## Border-pass lemmas -/

/-- `mapMOpt` over an appended list splits into the two halves. -/
theorem mapMOpt_append {α β : Type} (g : α → Option β) (l₁ l₂ : List α) :
    mapMOpt g (l₁ ++ l₂)
      = (mapMOpt g l₁).bind (fun a => (mapMOpt g l₂).map (fun b => a ++ b)) := by
  induction l₁ with
  | nil => cases h : mapMOpt g l₂ <;> simp [mapMOpt, h]
  | cons x xs ih =>
    simp only [List.cons_append, mapMOpt, List.append_eq]
    rw [ih]
    cases g x <;> cases mapMOpt g xs <;> cases mapMOpt g l₂ <;> simp

/-- `mapMOpt` only looks at the images of the elements. -/
theorem mapMOpt_congr_middle {α β : Type} (g : α → Option β)
    (l₁ l₂ : List α) (x y : α) (h : g x = g y) :
    mapMOpt g (l₁ ++ x :: l₂) = mapMOpt g (l₁ ++ y :: l₂) := by
  induction l₁ with
  | nil => simp [mapMOpt, h]
  | cons z zs ih => simp [mapMOpt, ih]

/-- A skipped ring contributes nothing to the flattened lists. -/
theorem ringSegment_none {α : Type} (proj : ℚ → ℚ → α) (r : Json)
    (hr : ringRows r = none) : ringSegment proj r = [] := by
  simp [ringSegment, hr]

/-- The border contribution of a Polygon feature. -/
theorem processFeature_polygon {α : Type} (proj : ℚ → ℚ → α) (rs : List Json) :
    processFeature proj (mkPolygonFeature rs)
      = some ((rs.map (ringSegment proj)).flatten) := rfl

/-- The border contribution of a MultiPolygon feature: only the first
ring of each polygon is taken. -/
theorem processFeature_multipolygon {α : Type} (proj : ℚ → ℚ → α) (ps : List Json) :
    processFeature proj (mkMultiPolygonFeature ps)
      = (mapMOpt (fun p => match p with
          | Json.arr (r :: _) => some r
          | _ => none) ps).map
          (fun rs => (rs.map (ringSegment proj)).flatten) := rfl

/-- Unfolding of the border pass on a cons of features. -/
theorem processBorders_cons {α : Type} (proj : ℚ → ℚ → α) (f : Json) (fs : List Json) :
    processBorders proj (f :: fs)
      = (processFeature proj f).bind
          (fun seg => (processBorders proj fs).map (fun rest => seg ++ rest)) := by
  cases hf : processFeature proj f <;>
    cases hm : mapMOpt (processFeature proj) fs <;>
      simp [processBorders, mapMOpt, hf, hm]

/-- A successful feature contribution comes from a successful ring list. -/
theorem processFeature_some {α : Type} {proj : ℚ → ℚ → α} {f : Json}
    {seg : List (Option (NDVal α))} (h : processFeature proj f = some seg) :
    ∃ rs, featureRings f = some rs ∧ seg = (rs.map (ringSegment proj)).flatten := by
  unfold processFeature at h
  cases hr : featureRings f with
  | none => rw [hr] at h; simp at h
  | some rs => rw [hr] at h; simp at h; exact ⟨rs, rfl, h.symm⟩

/-- Projected ring points carry no separator. -/
theorem countP_isNone_map_some {α β : Type} (g : β → α) (pts : List β) :
    (pts.map (fun p => some (g p))).countP (fun o => o.isNone) = 0 := by
  induction pts with
  | nil => rfl
  | cons p ps ih => simp [List.countP_cons, ih]

/-- Dropping the `Option` layer of projected ring points recovers them. -/
theorem filterMap_id_map_some {α β : Type} (g : β → α) (pts : List β) :
    (pts.map (fun p => some (g p))).filterMap id = pts.map g := by
  induction pts with
  | nil => rfl
  | cons p ps ih => simp [List.filterMap_cons, ih]

/-- Separator count and separator-free content of one ring list's
flattened contribution. -/
theorem rings_flatten_facts {α : Type} (proj : ℚ → ℚ → α) (rs : List Json) :
    sepCount ((rs.map (ringSegment proj)).flatten)
      = rs.countP (fun r => (ringRows r).isSome)
    ∧ ((rs.map (ringSegment proj)).flatten).filterMap id
      = ((rs.filterMap ringRows).flatten).map (fun pr => projPair proj pr.1 pr.2) := by
  induction rs with
  | nil => simp [sepCount]
  | cons r rs ih =>
    obtain ⟨ih₁, ih₂⟩ := ih
    simp only [sepCount] at ih₁ ⊢
    cases h : ringRows r with
    | none =>
      constructor
      · simp [ringSegment_none proj r h, List.countP_cons, h, ih₁]
      · simp [ringSegment_none proj r h, List.filterMap_cons, h, ih₂]
    | some pts =>
      have hseg : ringSegment proj r
          = pts.map (fun pr => some (projPair proj pr.1 pr.2)) ++ [none] := by
        simp [ringSegment, h]
      constructor
      · rw [List.map_cons, List.flatten_cons, hseg, List.countP_append,
          List.countP_append, countP_isNone_map_some]
        simp [ih₁, List.countP_cons, h]
        omega
      · rw [List.map_cons, List.flatten_cons, hseg, List.filterMap_append,
          List.filterMap_append, filterMap_id_map_some]
        simp [ih₂, List.filterMap_cons, h]

/-! ## C5 -/

/-- C5 counterexample: a well-formed FeatureCollection with one
MultiPolygon feature whose single polygon has two rings. The code keeps
only `poly[0]`, so the flattened border sequence contains one `None`
separator while the input has two rings — refuting "exactly one None
separator after each input ring". -/
theorem border_inner_ring_separator_cex :
    (processBorders (fun a b => (a, b)) innerRingFeatures).map sepCount = some 1
    ∧ specInputRingCount innerRingFeatures = 2 := ⟨rfl, rfl⟩

/-- C5 (amended): whenever the border pass completes, the flattened
sequence contains exactly one `None` separator after each ring the `try`
block completes on — every ring of a Polygon, only the first ring of each
MultiPolygon polygon, skipped rings contributing nothing — and removing
the separators recovers exactly the per-row data entries those rings emit
(the projected points, for normally shaped 2-D rings), so a separator is
never among the plotted data. -/
theorem border_separator_structure {α : Type} (proj : ℚ → ℚ → α) :
    ∀ (fs : List Json) (out : List (Option (NDVal α))),
      processBorders proj fs = some out →
      sepCount out = parsedRingCount fs
      ∧ out.filterMap id = parsedEntries proj fs := by
  intro fs
  induction fs with
  | nil =>
    intro out h
    have hout : out = [] := by
      simpa [processBorders, mapMOpt] using h.symm
    subst hout
    simp [sepCount, parsedRingCount, parsedEntries, allRings]
  | cons f fs ih =>
    intro out h
    rw [processBorders_cons] at h
    cases hf : processFeature proj f with
    | none => rw [hf] at h; simp at h
    | some seg =>
      rw [hf] at h
      cases hm : processBorders proj fs with
      | none => rw [hm] at h; simp at h
      | some rest =>
        rw [hm] at h
        simp at h
        obtain ⟨rs, hrs, hseg⟩ := processFeature_some hf
        obtain ⟨m₁, m₂⟩ := ih rest hm
        obtain ⟨r₁, r₂⟩ := rings_flatten_facts proj rs
        constructor
        · calc sepCount out = sepCount seg + sepCount rest := by
                rw [← h]; simp [sepCount, List.countP_append]
            _ = rs.countP (fun r => (ringRows r).isSome) + parsedRingCount fs := by
                rw [hseg, r₁, m₁]
            _ = parsedRingCount (f :: fs) := by
                simp [parsedRingCount, allRings, hrs, List.countP_append]
        · calc out.filterMap id = seg.filterMap id ++ rest.filterMap id := by
                rw [← h]; simp [List.filterMap_append]
            _ = ((rs.filterMap ringRows).flatten).map (fun pr => projPair proj pr.1 pr.2)
                ++ parsedEntries proj fs := by
                rw [hseg, r₂, m₂]
            _ = parsedEntries proj (f :: fs) := by
                simp [parsedEntries, allRings, hrs, List.filterMap_append,
                  List.flatten_append, List.map_append]

/-- Witness for the amended C5: a single Polygon feature with one good
ring. -/
theorem border_separator_structure_witness :
    sepCount ((processBorders (fun a b => (a, b))
        [mkPolygonFeature [goodRing]]).getD [])
      = parsedRingCount [mkPolygonFeature [goodRing]]
    ∧ ((processBorders (fun a b => (a, b))
        [mkPolygonFeature [goodRing]]).getD []).filterMap id
      = parsedEntries (fun a b => (a, b)) [mkPolygonFeature [goodRing]] :=
  border_separator_structure (fun a b => (a, b)) [mkPolygonFeature [goodRing]]
    ((processBorders (fun a b => (a, b)) [mkPolygonFeature [goodRing]]).getD [])
    rfl

/-! ## C6 -/

/-- C6 counterexample: an over-nested numeric ring (a whole polygon in a
ring slot, `np.array` shape (1, 2, 2)) is a misshapen coordinate array,
yet the `try` block completes on it: the pass emits one nested data entry
and a separator for it instead of skipping it — the output differs from
the output without the ring. -/
theorem border_nested_ring_not_skipped_cex :
    processBorders (fun a b => (a, b)) [mkPolygonFeature [nestedRing]]
      = some [some (NDVal.tensor [NDVal.scalar ((3 : ℚ), (1 : ℚ)),
          NDVal.scalar ((4 : ℚ), (2 : ℚ))]), none]
    ∧ processBorders (fun a b => (a, b)) [mkPolygonFeature []] = some []
    ∧ processBorders (fun a b => (a, b)) [mkPolygonFeature [nestedRing]]
      ≠ processBorders (fun a b => (a, b)) [mkPolygonFeature []] := by
  refine ⟨rfl, rfl, fun h => ?_⟩
  exact absurd (congrArg (fun o => (Option.getD o []).length) h) (by decide)

/-- C6 (amended): a ring on which the `try` body raises — a non-list,
scalar-element, empty, ragged, non-numeric, or narrower-than-two-column
coordinate array — is skipped individually wherever it sits (among a
Polygon's rings, or as the first ring of a MultiPolygon polygon), and the
rest of the rings and features produce exactly what they would produce
without it. (A misshapen ring that is uniformly nested and numeric is NOT
skipped: the `try` completes and emits nested entries plus a separator.) -/
theorem border_malformed_ring_skipped {α : Type} (proj : ℚ → ℚ → α)
    (fs₁ fs₂ rs₁ rs₂ ps₁ ps₂ rest : List Json) (r : Json)
    (hr : ringRows r = none) :
    processBorders proj (fs₁ ++ mkPolygonFeature (rs₁ ++ r :: rs₂) :: fs₂)
      = processBorders proj (fs₁ ++ mkPolygonFeature (rs₁ ++ rs₂) :: fs₂)
    ∧ processBorders proj
        (fs₁ ++ mkMultiPolygonFeature (ps₁ ++ Json.arr (r :: rest) :: ps₂) :: fs₂)
      = processBorders proj (fs₁ ++ mkMultiPolygonFeature (ps₁ ++ ps₂) :: fs₂) := by
  constructor
  · have hf : processFeature proj (mkPolygonFeature (rs₁ ++ r :: rs₂))
        = processFeature proj (mkPolygonFeature (rs₁ ++ rs₂)) := by
      rw [processFeature_polygon, processFeature_polygon]
      simp [List.map_append, List.flatten_append, ringSegment_none proj r hr]
    unfold processBorders
    rw [mapMOpt_congr_middle _ _ _ _ _ hf]
  · have hf : processFeature proj
        (mkMultiPolygonFeature (ps₁ ++ Json.arr (r :: rest) :: ps₂))
        = processFeature proj (mkMultiPolygonFeature (ps₁ ++ ps₂)) := by
      rw [processFeature_multipolygon, processFeature_multipolygon]
      rw [mapMOpt_append, mapMOpt_append]
      cases h₁ : mapMOpt (fun p => match p with
          | Json.arr (s :: _) => some s
          | _ => none) ps₁ <;>
        cases h₂ : mapMOpt (fun p => match p with
            | Json.arr (s :: _) => some s
            | _ => none) ps₂ <;>
          simp [mapMOpt, h₁, h₂, List.map_append, List.flatten_append,
            ringSegment_none proj r hr]
    unfold processBorders
    rw [mapMOpt_congr_middle _ _ _ _ _ hf]

/-- Witness for C6: the non-numeric ring `"bad"` among a Polygon's rings
and as the first ring of a MultiPolygon polygon. -/
theorem border_malformed_ring_skipped_witness :
    processBorders (fun a b => (a, b))
        [mkPolygonFeature [Json.str "bad", goodRing]]
      = processBorders (fun a b => (a, b)) [mkPolygonFeature [goodRing]]
    ∧ processBorders (fun a b => (a, b))
        [mkMultiPolygonFeature [Json.arr [Json.str "bad"]]]
      = processBorders (fun a b => (a, b)) [mkMultiPolygonFeature []] :=
  border_malformed_ring_skipped (fun a b => (a, b)) [] [] [] [goodRing] [] [] []
    (Json.str "bad") rfl
